import Mathlib

/-!
Verification development for the reod20bot repository (src/main.py).

The bot's logic is embedded shallowly:
* the five role-keyed champion/aggression dictionaries become association
  lists `List (String × Nat)` (Python dicts preserve insertion order);
* the `/roll` handler's bucketing and champion filtering become pure
  functions of the rolled value and the optional role argument, with the
  `random.choice` draw modelled by an arbitrary index;
* the SQLite store becomes a `List Roll` of rows, and each SQL query in
  `get_user_stats`, `get_leaderboard_data` and `get_user_rank` becomes an
  explicit group/filter/sort/limit pipeline over that list;
* icon resolution becomes a pure function of the champion name and the set
  of files present in the icon directory.
-/

/-- Model of `TOP_LANE_CHAMPIONS` from src/main.py, as an insertion-ordered
association list (name, aggression score). -/
def TOP_LANE_CHAMPIONS : List (String × Nat) :=
  [("Aatrox", 8), ("Camille", 13), ("Cho\x27Gath", 7), ("Darius", 13), ("Dr. Mundo", 4),
   ("Fiora", 11), ("Garen", 4), ("Gnar", 16), ("Illaoi", 7), ("Irelia", 14), ("Jax", 13),
   ("Jayce", 4), ("Kayle", 3), ("Kennen", 17), ("Kled", 20), ("Malphite", 17), ("Maokai", 9),
   ("Mordekaiser", 8), ("Nasus", 3), ("Ornn", 14), ("Poppy", 10), ("Quinn", 3),
   ("Renekton", 13), ("Riven", 13), ("Rumble", 8), ("Sett", 14), ("Shen", 17), ("Singed", 8),
   ("Sion", 9), ("Tryndamere", 7), ("Urgot", 8), ("Volibear", 14), ("Yorick", 8),
   ("Teemo", 1), ("Aurora", 2), ("Vayne", 3), ("Kalista", 4)]

/-- Model of `SUPPORT_CHAMPIONS` from src/main.py. -/
def SUPPORT_CHAMPIONS : List (String × Nat) :=
  [("Alistar", 15), ("Bard", 11), ("Blitzcrank", 14), ("Braum", 10), ("Janna", 3),
   ("Karma", 3), ("Leona", 17), ("Lulu", 7), ("Morgana", 13), ("Nami", 12),
   ("Nautilus", 16), ("Pyke", 11), ("Rakan", 17), ("Rell", 18), ("Renata Glasc", 10),
   ("Sona", 8), ("Soraka", 4), ("Tahm Kench", 9), ("Taric", 9), ("Thresh", 16),
   ("Yuumi", 2), ("Zilean", 7), ("Zyra", 9), ("Milio", 5), ("Malphite", 20), ("Teemo", 1)]

/-- Model of `JUNGLE_CHAMPIONS` from src/main.py. -/
def JUNGLE_CHAMPIONS : List (String × Nat) :=
  [("Amumu", 17), ("Bel\x27Veth", 5), ("Briar", 19), ("Diana", 16), ("Ekko", 8),
   ("Elise", 11), ("Evelynn", 8), ("Fiddlesticks", 17), ("Gragas", 12), ("Graves", 4),
   ("Hecarim", 17), ("Ivern", 2), ("Jarvan IV", 16), ("Jax", 13), ("Karthus", 8),
   ("Kayn", 14), ("Kindred", 2), ("Kha\x27Zix", 14), ("Lee Sin", 17), ("Lillia", 13),
   ("Maokai", 9), ("Master Yi", 5), ("Nidalee", 5), ("Nocturne", 16),
   ("Nunu & Willump", 16), ("Poppy", 10), ("Rammus", 10), ("Rek\x27Sai", 9),
   ("Rengar", 11), ("Sejuani", 16), ("Shaco", 3), ("Skarner", 16), ("Talon", 11),
   ("Trundle", 8), ("Udyr", 6), ("Vi", 16), ("Viego", 9), ("Warwick", 14),
   ("Wukong", 15), ("Xin Zhao", 9), ("Zac", 17), ("Teemo", 1), ("Malphite", 20)]

/-- Model of `ADC_CHAMPIONS` from src/main.py. -/
def ADC_CHAMPIONS : List (String × Nat) :=
  [("Aphelios", 8), ("Ashe", 18), ("Caitlyn", 3), ("Draven", 14), ("Ezreal", 2),
   ("Jhin", 12), ("Jinx", 20), ("Kai\x27Sa", 14), ("Kalista", 17), ("Kog\x27Maw", 9),
   ("Lucian", 14), ("Miss Fortune", 8), ("Nilah", 16), ("Samira", 18), ("Senna", 4),
   ("Sivir", 3), ("Tristana", 16), ("Twitch", 16), ("Varus", 16), ("Vayne", 8),
   ("Xayah", 8), ("Zeri", 15), ("Teemo", 1)]

/-- Model of `MID_LANE_CHAMPIONS` from src/main.py. -/
def MID_LANE_CHAMPIONS : List (String × Nat) :=
  [("Ahri", 12), ("Akali", 17), ("Anivia", 11), ("Annie", 18), ("Aurelion Sol", 11),
   ("Azir", 17), ("Cassiopeia", 14), ("Corki", 2), ("Diana", 16), ("Ekko", 12),
   ("Fizz", 17), ("Galio", 14), ("Irelia", 17), ("Jayce", 4), ("Kassadin", 12),
   ("Katarina", 17), ("LeBlanc", 8), ("Lissandra", 14), ("Lux", 6), ("Malzahar", 14),
   ("Neeko", 17), ("Orianna", 14), ("Qiyana", 18), ("Ryze", 11), ("Seraphine", 14),
   ("Sylas", 16), ("Syndra", 12), ("Taliyah", 12), ("Talon", 14), ("Twisted Fate", 10),
   ("Veigar", 11), ("Vel\x27Koz", 4), ("Viktor", 6), ("Vladimir", 7), ("Xerath", 3),
   ("Yasuo", 17), ("Yone", 17), ("Zed", 18), ("Ziggs", 4), ("Zoe", 8),
   ("Teemo", 1), ("Malphite", 20)]

/-- The `if/elif` bucket chain at the top of the `roll` handler
(src/main.py lines 485-526): maps the rolled value to the `(low, high)`
pair of its inclusive score range. -/
def bucket (v : Nat) : Nat × Nat :=
  if v = 1 then (1, 1)
  else if 2 ≤ v ∧ v ≤ 4 then (2, 4)
  else if 5 ≤ v ∧ v ≤ 9 then (5, 9)
  else if 10 ≤ v ∧ v ≤ 14 then (10, 14)
  else if 15 ≤ v ∧ v ≤ 19 then (15, 19)
  else (20, 20)

/-- The role-to-tables dispatch in the `roll` handler (src/main.py lines
529-549).  `none` (no role argument) and any unrecognised role string both
select all five tables, in the order the handler lists them. -/
def mapsFor (role_value : Option String) : List (List (String × Nat)) :=
  match role_value with
  | none => [TOP_LANE_CHAMPIONS, JUNGLE_CHAMPIONS, ADC_CHAMPIONS, MID_LANE_CHAMPIONS,
             SUPPORT_CHAMPIONS]
  | some rv =>
    if rv = "top" then [TOP_LANE_CHAMPIONS]
    else if rv = "jungle" then [JUNGLE_CHAMPIONS]
    else if rv = "adc" then [ADC_CHAMPIONS]
    else if rv = "mid" then [MID_LANE_CHAMPIONS]
    else if rv = "support" then [SUPPORT_CHAMPIONS]
    else [TOP_LANE_CHAMPIONS, JUNGLE_CHAMPIONS, ADC_CHAMPIONS, MID_LANE_CHAMPIONS,
          SUPPORT_CHAMPIONS]

/-- Accumulator recursion behind `dedupFirst`: drops elements already seen,
keeping first occurrences in order (models Python set insertion). -/
def dedupFirstAux {α : Type} [DecidableEq α] (seen : List α) : List α → List α
  | [] => []
  | a :: rest => if a ∈ seen then dedupFirstAux seen rest
                 else a :: dedupFirstAux (a :: seen) rest

/-- Deduplicate a list keeping the first occurrence of each element. -/
def dedupFirst {α : Type} [DecidableEq α] (l : List α) : List α :=
  dedupFirstAux [] l

/-- The champion-gathering loop in the `roll` handler (src/main.py lines
551-556): every name from an in-scope table whose score falls in the
bucket, in table-scan order and with duplicates still present. -/
def rawNames (role_value : Option String) (v : Nat) : List String :=
  (mapsFor role_value).flatMap fun m =>
    (m.filter fun p => decide ((bucket v).1 ≤ p.2 ∧ p.2 ≤ (bucket v).2)).map Prod.fst

/-- Lexicographic comparison of character lists by code point, the order
Python's `sorted` applies to strings. -/
def charListLe : List Char → List Char → Bool
  | [], _ => true
  | _ :: _, [] => false
  | a :: as, b :: bs =>
    if a.toNat < b.toNat then true
    else if b.toNat < a.toNat then false
    else charListLe as bs

/-- Code-point lexicographic order on strings (Python string order). -/
def pyStrLe (a b : String) : Prop := charListLe a.data b.data = true

instance : DecidableRel pyStrLe := fun a b => by
  unfold pyStrLe; infer_instance

/-- Model of `names_list = sorted(names)` in the `roll` handler (src/main.py line
558): the deduplicated, lexicographically sorted candidate list the
champion is drawn from. -/
def bucketNames (role_value : Option String) (v : Nat) : List String :=
  List.insertionSort pyStrLe (dedupFirst (rawNames role_value v))

/-- Model of `random.choice(names_list)` in the `roll` handler, with the random
draw modelled by an arbitrary index `pick` (src/main.py lines 559-560):
returns the selected champion, or `none` on the empty-candidates branch
(src/main.py lines 659-667, which logs a roll with a null champion). -/
def rollChampion (role_value : Option String) (v : Nat) (pick : Nat) : Option String :=
  if (bucketNames role_value v).length = 0 then none
  else (bucketNames role_value v)[pick % (bucketNames role_value v).length]?

/-- The six role scopes a `/roll` invocation can run under: the five
enumerated role choices, or no role at all. -/
def roleScopes : List (Option String) :=
  [none, some "top", some "jungle", some "adc", some "mid", some "support"]

/-- The six inclusive bucket ranges of the `roll` handler. -/
def bucketRanges : List (Nat × Nat) :=
  [(1, 1), (2, 4), (5, 9), (10, 14), (15, 19), (20, 20)]

/-- A champion guaranteed to land in the bucket of `v` for each role scope;
used to witness that the filtered candidate set is never empty. -/
def bucketWitnessName (role_value : Option String) (v : Nat) : String :=
  let low := (bucket v).1
  match role_value with
  | some "top" =>
    if low = 1 then "Teemo" else if low = 2 then "Aurora" else if low = 5 then "Aatrox"
    else if low = 10 then "Camille" else if low = 15 then "Gnar" else "Kled"
  | some "jungle" =>
    if low = 1 then "Teemo" else if low = 2 then "Ivern" else if low = 5 then "Ekko"
    else if low = 10 then "Gragas" else if low = 15 then "Amumu" else "Malphite"
  | some "adc" =>
    if low = 1 then "Teemo" else if low = 2 then "Ezreal" else if low = 5 then "Aphelios"
    else if low = 10 then "Jhin" else if low = 15 then "Ashe" else "Jinx"
  | some "mid" =>
    if low = 1 then "Teemo" else if low = 2 then "Corki" else if low = 5 then "Lux"
    else if low = 10 then "Ahri" else if low = 15 then "Akali" else "Malphite"
  | some "support" =>
    if low = 1 then "Teemo" else if low = 2 then "Yuumi" else if low = 5 then "Lulu"
    else if low = 10 then "Bard" else if low = 15 then "Alistar" else "Malphite"
  | _ =>
    if low = 1 then "Teemo" else if low = 2 then "Aurora" else if low = 5 then "Aatrox"
    else if low = 10 then "Camille" else if low = 15 then "Gnar" else "Kled"

/-- A row of the `rolls` table (src/main.py `init_database`): one record
per `/roll` invocation.  Timestamps are modelled as abstract `Nat` ticks;
they only matter for ordering recent rolls. -/
structure Roll where
  user_id : Int
  username : String
  roll_value : Nat
  role : Option String
  champion : Option String
  timestamp : Nat
deriving DecidableEq

/-- The `GROUP BY user_id, username` key used by the leaderboard SQL. -/
def rollKey (r : Roll) : Int × String := (r.user_id, r.username)

/-- Boolean test that a row belongs to a given (user_id, username) group. -/
def rollKeyB (r : Roll) (k : Int × String) : Bool := decide (rollKey r = k)

/-- One fetched leaderboard row after the Python post-processing loop
(src/main.py lines 309-320): rank assigned by `enumerate(results, 1)`,
then user id, username, and the remaining selected columns in order. -/
structure LBEntry where
  rank : Nat
  user_id : Int
  username : String
  data : List ℚ
deriving DecidableEq

/-- Model of `enumerate(results, 1)`: attach 1-based consecutive ranks. -/
def addRanks : Nat → List ((Int × String) × List ℚ) → List LBEntry
  | _, [] => []
  | i, (k, d) :: rest => ⟨i, k.1, k.2, d⟩ :: addRanks (i + 1) rest

/-- SQLite `ROUND(x, 2)` on the non-negative values this bot produces:
round half up to two decimal places. -/
def round2 (q : ℚ) : ℚ := ((q * 100 + 1 / 2).floor : ℚ) / 100

/-- Model of `ORDER BY count DESC` on grouped rows (ties left in group order, which
SQLite leaves unspecified; the stable sort fixes one admissible order). -/
def countRel (a b : (Int × String) × Nat) : Prop := b.2 ≤ a.2

instance : DecidableRel countRel := fun a b => by
  unfold countRel; infer_instance

instance : IsTotal ((Int × String) × Nat) countRel :=
  ⟨fun a b => Nat.le_total b.2 a.2⟩

instance : IsTrans ((Int × String) × Nat) countRel :=
  ⟨fun _ _ _ hab hbc => Nat.le_trans hbc hab⟩

/-- Model of `SELECT user_id, username, COUNT(*) ... GROUP BY user_id, username`
over a (possibly pre-filtered) row list. -/
def groupCounts (rel : List Roll) : List ((Int × String) × Nat) :=
  (dedupFirst (rel.map rollKey)).map fun k => (k, rel.countP fun r => rollKeyB r k)

/-- The count-style leaderboard queries (total_rolls, natural_20s,
natural_1s): group, count, order descending, limit, then rank. -/
def countPipeline (rel : List Roll) (limit : Nat) : List LBEntry :=
  addRanks 1 (((List.insertionSort countRel (groupCounts rel)).take limit).map
    fun x => (x.1, [(x.2 : ℚ)]))

/-- The threshold-style leaderboard queries (luckiest, unluckiest,
highest_avg): group by (user_id, username), compute per-group columns
(`mk k` = (the group's COUNT(*), the selected data columns)), apply
`HAVING total_rolls >= minRolls`, order, limit, rank. -/
def lbPipeline (db : List Roll) (mk : (Int × String) → Nat × List ℚ)
    (rel : ((Int × String) × Nat × List ℚ) → ((Int × String) × Nat × List ℚ) → Prop)
    [DecidableRel rel] (minRolls limit : Nat) : List LBEntry :=
  let rows := (dedupFirst (db.map rollKey)).map fun k => (k, mk k)
  let kept := rows.filter fun x => decide (minRolls ≤ x.2.1)
  addRanks 1 (((List.insertionSort rel kept).take limit).map fun x => (x.1, x.2.2))

/-- Model of `COUNT(*)` of a (user_id, username) group. -/
def keyTotal (db : List Roll) (k : Int × String) : Nat :=
  db.countP fun r => rollKeyB r k

/-- Model of `COUNT(CASE WHEN roll_value = v THEN 1 END)` of a group. -/
def keyCountVal (db : List Roll) (k : Int × String) (v : Nat) : Nat :=
  db.countP fun r => rollKeyB r k && decide (r.roll_value = v)

/-- Selected columns of the `luckiest` query: nat_20s, total_rolls,
luck_percentage (src/main.py lines 249-260). -/
def luckMk (db : List Roll) (k : Int × String) : Nat × List ℚ :=
  (keyTotal db k,
   [(keyCountVal db k 20 : ℚ), (keyTotal db k : ℚ),
    round2 ((keyCountVal db k 20 : ℚ) * 100 / (keyTotal db k : ℚ))])

/-- Selected columns of the `unluckiest` query: nat_1s, total_rolls,
unluck_percentage (src/main.py lines 261-272). -/
def unluckMk (db : List Roll) (k : Int × String) : Nat × List ℚ :=
  (keyTotal db k,
   [(keyCountVal db k 1 : ℚ), (keyTotal db k : ℚ),
    round2 ((keyCountVal db k 1 : ℚ) * 100 / (keyTotal db k : ℚ))])

/-- Selected columns of the `highest_avg` query: avg_roll, total_rolls
(src/main.py lines 273-283). -/
def avgMk (db : List Roll) (k : Int × String) : Nat × List ℚ :=
  (keyTotal db k,
   [round2 (((db.filter fun r => rollKeyB r k).map fun r => (r.roll_value : ℚ)).sum /
      (keyTotal db k : ℚ)),
    (keyTotal db k : ℚ)])

/-- Model of `ORDER BY percentage DESC, count DESC` over rows whose data columns
are [count, total, percentage]. -/
def pctCountRel (a b : (Int × String) × Nat × List ℚ) : Prop :=
  b.2.2.getD 2 0 < a.2.2.getD 2 0 ∨
    (b.2.2.getD 2 0 = a.2.2.getD 2 0 ∧ b.2.2.getD 0 0 ≤ a.2.2.getD 0 0)

instance : DecidableRel pctCountRel := fun a b => by
  unfold pctCountRel; infer_instance

/-- Model of `ORDER BY avg_roll DESC, total_rolls DESC` over rows whose data
columns are [avg_roll, total_rolls]. -/
def avgTotalRel (a b : (Int × String) × Nat × List ℚ) : Prop :=
  b.2.2.getD 0 0 < a.2.2.getD 0 0 ∨
    (b.2.2.getD 0 0 = a.2.2.getD 0 0 ∧ b.2.2.getD 1 0 ≤ a.2.2.getD 1 0)

instance : DecidableRel avgTotalRel := fun a b => by
  unfold avgTotalRel; infer_instance

/-- Model of `get_leaderboard_data` (src/main.py lines 218-320).  The two
time-filtered categories (most_active_today, most_active_week) need a
clock and are outside this model; no verified claim touches them, and
like the SQL `else` branch every unmodelled category yields `[]`. -/
def get_leaderboard_data (db : List Roll) (category : String) (limit : Nat) :
    List LBEntry :=
  if category = "total_rolls" then countPipeline db limit
  else if category = "natural_20s" then
    countPipeline (db.filter fun r => decide (r.roll_value = 20)) limit
  else if category = "natural_1s" then
    countPipeline (db.filter fun r => decide (r.roll_value = 1)) limit
  else if category = "luckiest" then lbPipeline db (luckMk db) pctCountRel 5 limit
  else if category = "unluckiest" then lbPipeline db (unluckMk db) pctCountRel 5 limit
  else if category = "highest_avg" then lbPipeline db (avgMk db) avgTotalRel 5 limit
  else []

/-- Model of `ORDER BY timestamp DESC` for the recent-rolls query. -/
def tsDescRel (a b : Roll) : Prop := b.timestamp ≤ a.timestamp

instance : DecidableRel tsDescRel := fun a b => by
  unfold tsDescRel; infer_instance

/-- The result of `get_user_stats` (src/main.py lines 182-216). -/
structure UserStats where
  total_rolls : Nat
  natural_20s : Nat
  natural_1s : Nat
  recent_rolls : List Roll
deriving DecidableEq

/-- Model of `get_user_stats`: per-user counts plus the last 10 rolls by timestamp. -/
def get_user_stats (db : List Roll) (uid : Int) : UserStats where
  total_rolls := db.countP fun r => decide (r.user_id = uid)
  natural_20s := db.countP fun r => decide (r.user_id = uid ∧ r.roll_value = 20)
  natural_1s := db.countP fun r => decide (r.user_id = uid ∧ r.roll_value = 1)
  recent_rolls :=
    (List.insertionSort tsDescRel (db.filter fun r => decide (r.user_id = uid))).take 10

/-- Observable outcome of the `/stats` handler (src/main.py lines
708-810): either the "No Rolls Yet!" embed, or the statistics embed whose
percentage and average fields are the only places a division happens. -/
inductive StatsResponse where
  | noRollsYet
  | statsEmbed (total n20 n1 : Nat) (nat20pct nat1pct avgRecent : ℚ) (high15 low5 : Nat)
deriving DecidableEq

/-- The `/stats` handler: early-returns the "No Rolls Yet!" embed when the
user has no rolls (src/main.py lines 713-721); all divisions (the two
percentages and the recent average) occur only after that return. -/
def stats (db : List Roll) (uid : Int) : StatsResponse :=
  let s := get_user_stats db uid
  if s.total_rolls = 0 then .noRollsYet
  else
    .statsEmbed s.total_rolls s.natural_20s s.natural_1s
      ((s.natural_20s : ℚ) / (s.total_rolls : ℚ) * 100)
      ((s.natural_1s : ℚ) / (s.total_rolls : ℚ) * 100)
      (if s.recent_rolls.isEmpty then 0
       else (s.recent_rolls.map fun r => (r.roll_value : ℚ)).sum /
         (s.recent_rolls.length : ℚ))
      (s.recent_rolls.filter fun r => decide (15 ≤ r.roll_value)).length
      (s.recent_rolls.filter fun r => decide (r.roll_value ≤ 5)).length

/-- Model of `SELECT COUNT(*) FROM rolls WHERE user_id = u`. -/
def userTotalCount (db : List Roll) (u : Int) : Nat :=
  db.countP fun r => decide (r.user_id = u)

/-- Model of `SELECT COUNT(*) FROM rolls WHERE user_id = u AND roll_value = 20`. -/
def userNat20Count (db : List Roll) (u : Int) : Nat :=
  db.countP fun r => decide (r.user_id = u ∧ r.roll_value = 20)

/-- The scalar subquery of the `luckiest` rank query: the user's rounded
natural-20 percentage.  When the user has no rolls SQLite's division by
zero yields NULL, modelled as `none`; any `>` comparison with it is
false. -/
def userLuckPct (db : List Roll) (u : Int) : Option ℚ :=
  if userTotalCount db u = 0 then none
  else some (round2 ((userNat20Count db u : ℚ) * 100 / (userTotalCount db u : ℚ)))

/-- Model of `get_user_rank` (src/main.py lines 322-380): counts the groups of the
inner `GROUP BY user_id` query that pass the `HAVING` clause and adds 1;
only the three categories the code handles return a rank, everything else
falls to the `else` branch returning `None`. -/
def get_user_rank (db : List Roll) (uid : Int) (category : String) : Option Nat :=
  if category = "total_rolls" then
    some (1 + (dedupFirst (db.map fun r => r.user_id)).countP fun u =>
      decide (userTotalCount db uid < userTotalCount db u))
  else if category = "natural_20s" then
    some (1 + (dedupFirst ((db.filter fun r => decide (r.roll_value = 20)).map
        fun r => r.user_id)).countP fun u =>
      decide (userNat20Count db uid <
        (db.filter fun r => decide (r.roll_value = 20)).countP
          fun r => decide (r.user_id = u)))
  else if category = "luckiest" then
    some (1 + (dedupFirst (db.map fun r => r.user_id)).countP fun u =>
      decide (5 ≤ userTotalCount db u) &&
        match userLuckPct db uid with
        | none => false
        | some p =>
          decide (p < round2 ((userNat20Count db u : ℚ) * 100 / (userTotalCount db u : ℚ))))
  else none

/-- Observable outcome of the `/leaderboard` handler (src/main.py lines
828-945): the invalid-limit error embed, the empty-data embed, or the
rankings embed together with the caller's own rank lookup. -/
inductive LBResponse where
  | invalidLimit
  | noData
  | board (entries : List LBEntry) (userRank : Option Nat)
deriving DecidableEq

/-- The `/leaderboard` handler: validates `limit` before any query runs
(src/main.py lines 830-838). -/
def leaderboard (db : List Roll) (uid : Int) (category : String) (limit : Int) :
    LBResponse :=
  if limit < 1 ∨ 25 < limit then .invalidLimit
  else
    if (get_leaderboard_data db category limit.toNat).isEmpty then .noData
    else .board (get_leaderboard_data db category limit.toNat) (get_user_rank db uid category)

/-- The distinct user ids appearing in the rolls table, the universe the
rank queries count over (a user with no rows has count 0 or no percentage
and can never strictly outrank anyone). -/
def usersOf (db : List Roll) : List Int := dedupFirst (db.map fun r => r.user_id)

/-- Rank by total roll count as the spec words it: one plus the number of
users whose total strictly exceeds the given user's total. -/
def specRankTotal (db : List Roll) (uid : Int) : Nat :=
  1 + (usersOf db).countP fun u => decide (userTotalCount db uid < userTotalCount db u)

/-- Rank by natural-20 count as the spec words it. -/
def specRankNat20 (db : List Roll) (uid : Int) : Nat :=
  1 + (usersOf db).countP fun u => decide (userNat20Count db uid < userNat20Count db u)

/-- Rank by luck percentage as the code restricts it: only users with at
least 5 rolls participate, and a user with no rolls has no percentage. -/
def specRankLucky (db : List Roll) (uid : Int) : Nat :=
  1 + (usersOf db).countP fun u =>
    decide (5 ≤ userTotalCount db u) &&
      match userLuckPct db uid, userLuckPct db u with
      | some p, some q => decide (p < q)
      | _, _ => false

/-- Rank by luck percentage exactly as claim C3 words it, with no
minimum-sample filter: one plus the number of users whose luck percentage
strictly exceeds the given user's. -/
def claimLuckRank (db : List Roll) (uid : Int) : Nat :=
  1 + (usersOf db).countP fun u =>
    match userLuckPct db uid, userLuckPct db u with
    | some p, some q => decide (p < q)
    | _, _ => false

/-- A roll row with the fields the rank queries ignore left empty. -/
def mkRoll (uid : Int) (uname : String) (v ts : Nat) : Roll :=
  ⟨uid, uname, v, none, none, ts⟩

/-- A concrete store: user 1 has four rolls (all natural 20s, luck 100%),
user 2 has five rolls with one natural 20 (luck 20%). -/
def dbSmall : List Roll :=
  [mkRoll 1 "alice" 20 1, mkRoll 1 "alice" 20 2, mkRoll 1 "alice" 20 3, mkRoll 1 "alice" 20 4,
   mkRoll 2 "bob" 20 5, mkRoll 2 "bob" 3 6, mkRoll 2 "bob" 3 7, mkRoll 2 "bob" 3 8,
   mkRoll 2 "bob" 3 9]

/-- Python `dict.update`: existing keys keep their position but take the
new value, unseen keys are appended in the update's order. -/
def dictUpdate (d upd : List (String × Nat)) : List (String × Nat) :=
  (d.map fun p => match upd.lookup p.1 with
    | some v => (p.1, v)
    | none => p) ++
  upd.filter fun q => (d.lookup q.1).isNone

/-- The `all_champions` dict of `get_champion_info` (src/main.py lines
385-390): the five tables merged in the fixed order TOP, JUNGLE, ADC,
MID, SUPPORT, later updates overwriting earlier scores. -/
def allChampions : List (String × Nat) :=
  dictUpdate (dictUpdate (dictUpdate (dictUpdate (dictUpdate [] TOP_LANE_CHAMPIONS)
    JUNGLE_CHAMPIONS) ADC_CHAMPIONS) MID_LANE_CHAMPIONS) SUPPORT_CHAMPIONS

/-- Python `str.lower` on the ASCII champion names. -/
def pyLower (s : String) : String := ⟨s.data.map Char.toLower⟩

/-- The fields of the `get_champion_info` result this development uses
(name, aggression, roles); the flavor description and the icon path are
presentation only. -/
structure ChampionInfo where
  name : String
  aggression : Nat
  roles : List String
deriving DecidableEq

/-- Model of `get_champion_info` (src/main.py lines 382-437): case-insensitive
lookup in the merged dict, then role membership per table. -/
def get_champion_info (champion_name : String) : Option ChampionInfo :=
  match allChampions.find? fun p => pyLower p.1 == pyLower champion_name with
  | none => none
  | some p =>
    some ⟨p.1, p.2,
      (if (TOP_LANE_CHAMPIONS.lookup p.1).isSome then ["Top"] else []) ++
      (if (JUNGLE_CHAMPIONS.lookup p.1).isSome then ["Jungle"] else []) ++
      (if (ADC_CHAMPIONS.lookup p.1).isSome then ["ADC"] else []) ++
      (if (MID_LANE_CHAMPIONS.lookup p.1).isSome then ["Mid"] else []) ++
      (if (SUPPORT_CHAMPIONS.lookup p.1).isSome then ["Support"] else [])⟩

/-- The score of the last table containing the name, in the merge order
TOP, JUNGLE, ADC, MID, SUPPORT. -/
def lastMergedScore (name : String) : Option Nat :=
  (SUPPORT_CHAMPIONS.lookup name).orElse fun _ =>
    (MID_LANE_CHAMPIONS.lookup name).orElse fun _ =>
      (ADC_CHAMPIONS.lookup name).orElse fun _ =>
        (JUNGLE_CHAMPIONS.lookup name).orElse fun _ =>
          TOP_LANE_CHAMPIONS.lookup name

/-- Every role table containing the name, in the fixed display order. -/
def rolesOf (name : String) : List String :=
  (if (TOP_LANE_CHAMPIONS.lookup name).isSome then ["Top"] else []) ++
  (if (JUNGLE_CHAMPIONS.lookup name).isSome then ["Jungle"] else []) ++
  (if (ADC_CHAMPIONS.lookup name).isSome then ["ADC"] else []) ++
  (if (MID_LANE_CHAMPIONS.lookup name).isSome then ["Mid"] else []) ++
  (if (SUPPORT_CHAMPIONS.lookup name).isSome then ["Support"] else [])

/-- Every champion name of the five tables, deduplicated. -/
def allChampionNames : List String :=
  dedupFirst ([TOP_LANE_CHAMPIONS, JUNGLE_CHAMPIONS, ADC_CHAMPIONS, MID_LANE_CHAMPIONS,
    SUPPORT_CHAMPIONS].flatMap fun m => m.map Prod.fst)

/-- The name appears in more than one role table, with two different
scores among its entries. -/
def multiRoleDifferingScores (name : String) : Prop :=
  2 ≤ ([TOP_LANE_CHAMPIONS, JUNGLE_CHAMPIONS, ADC_CHAMPIONS, MID_LANE_CHAMPIONS,
        SUPPORT_CHAMPIONS].filterMap fun m => m.lookup name).length ∧
  ∃ s ∈ [TOP_LANE_CHAMPIONS, JUNGLE_CHAMPIONS, ADC_CHAMPIONS, MID_LANE_CHAMPIONS,
         SUPPORT_CHAMPIONS].filterMap fun m => m.lookup name,
    ∃ t ∈ [TOP_LANE_CHAMPIONS, JUNGLE_CHAMPIONS, ADC_CHAMPIONS, MID_LANE_CHAMPIONS,
           SUPPORT_CHAMPIONS].filterMap fun m => m.lookup name, s ≠ t

instance (name : String) : Decidable (multiRoleDifferingScores name) := by
  unfold multiRoleDifferingScores; infer_instance

/-- Model of `_ICON_OVERRIDES` from src/main.py: display name to icon filename. -/
def _ICON_OVERRIDES : List (String × String) :=
  [("Bel\x27Veth", "Belveth.png"), ("Cho\x27Gath", "Chogath.png"), ("Dr. Mundo", "DrMundo.png"),
   ("Jarvan IV", "JarvanIV.png"), ("Kai\x27Sa", "Kaisa.png"), ("Kha\x27Zix", "Khazix.png"),
   ("Kog\x27Maw", "KogMaw.png"), ("LeBlanc", "Leblanc.png"), ("Lee Sin", "LeeSin.png"),
   ("Master Yi", "MasterYi.png"), ("Miss Fortune", "MissFortune.png"),
   ("Nunu & Willump", "Nunu.png"), ("Rek\x27Sai", "RekSai.png"), ("Renata Glasc", "Renata.png"),
   ("Tahm Kench", "TahmKench.png"), ("Twisted Fate", "TwistedFate.png"),
   ("Vel\x27Koz", "Velkoz.png"), ("Xin Zhao", "XinZhao.png"), ("Wukong", "MonkeyKing.png"),
   ("Aurelion Sol", "AurelionSol.png")]

/-- The icon directory; the code joins it in front of every candidate. -/
def CHAMPION_ICONS_DIR : String := "champion_icons"

/-- Model of `[A-Za-z]` of the regular expression in `_default_icon_filename`. -/
def isAsciiLetter (c : Char) : Bool :=
  (65 ≤ c.toNat && c.toNat ≤ 90) || (97 ≤ c.toNat && c.toNat ≤ 122)

/-- Model of `_default_icon_filename` (src/main.py lines 439-443):
`re.split(r"[^A-Za-z]+", name)` followed by `"".join` keeps exactly the
ASCII-letter characters of the name; then `.png` is appended. -/
def _default_icon_filename (name : String) : String :=
  ⟨name.data.filter isAsciiLetter ++ ['.', 'p', 'n', 'g']⟩

/-- The apostrophe character. -/
def apos : Char := Char.ofNat 39

/-- Python `s.replace(c, "")` for a one-character pattern: drop every
occurrence of the character. -/
def pyRemoveChar (c : Char) (s : String) : String :=
  ⟨s.data.filter fun d => decide (d ≠ c)⟩

/-- The candidate list built by `get_icon_path_for_champion`
(src/main.py lines 448-458): the override filename if any, the default
filename, and - only when there is no override - the default filename
with apostrophes and spaces removed. -/
def iconCandidates (name : String) : List String :=
  (match _ICON_OVERRIDES.lookup name with | some f => [f] | none => []) ++
  [_default_icon_filename name] ++
  (match _ICON_OVERRIDES.lookup name with
   | some _ => []
   | none => [pyRemoveChar ' ' (pyRemoveChar apos (_default_icon_filename name))])

/-- Model of `get_icon_path_for_champion` (src/main.py lines 446-470): deduplicate
the candidates keeping first occurrences, return the full path of the
first candidate that exists in the icon directory, else no result.
`files` is the set of full paths present on disk. -/
def get_icon_path_for_champion (files : List String) (name : String) : Option String :=
  ((dedupFirst (iconCandidates name)).find? fun f =>
    files.contains (CHAMPION_ICONS_DIR ++ "/" ++ f)).map
    fun f => CHAMPION_ICONS_DIR ++ "/" ++ f

/-- Icon candidates exactly as the spec words them: the override-table
filename first if the name has one, then the filename derived by
stripping non-letter characters. -/
def iconSpecCandidates (name : String) : List String :=
  (match _ICON_OVERRIDES.lookup name with | some f => [f] | none => []) ++
  [_default_icon_filename name]

/-- Icon resolution as the spec words it: the full path of the first
candidate, in override-then-derived order, that exists as a file. -/
def iconSpecResolve (files : List String) (name : String) : Option String :=
  ((iconSpecCandidates name).find? fun f =>
    files.contains (CHAMPION_ICONS_DIR ++ "/" ++ f)).map
    fun f => CHAMPION_ICONS_DIR ++ "/" ++ f

theorem mem_dedupFirstAux {α : Type} [DecidableEq α] {a : α} :
    ∀ {l seen : List α}, a ∈ dedupFirstAux seen l ↔ a ∈ l ∧ a ∉ seen := by
  intro l
  induction l with
  | nil => intro seen; simp [dedupFirstAux]
  | cons b rest ih =>
    intro seen
    by_cases hb : b ∈ seen
    · rw [dedupFirstAux, if_pos hb, ih]
      constructor
      · rintro ⟨h1, h2⟩
        exact ⟨List.mem_cons_of_mem _ h1, h2⟩
      · rintro ⟨h1, h2⟩
        rcases List.mem_cons.1 h1 with rfl | h1
        · exact absurd hb h2
        · exact ⟨h1, h2⟩
    · rw [dedupFirstAux, if_neg hb]
      constructor
      · intro h
        rcases List.mem_cons.1 h with rfl | h
        · exact ⟨List.mem_cons_self _ _, hb⟩
        · rcases ih.1 h with ⟨h1, h2⟩
          exact ⟨List.mem_cons_of_mem _ h1, fun hs => h2 (List.mem_cons_of_mem _ hs)⟩
      · rintro ⟨h1, h2⟩
        rcases List.mem_cons.1 h1 with rfl | h1
        · exact List.mem_cons_self _ _
        · by_cases hba : a = b
          · exact hba ▸ List.mem_cons_self _ _
          · refine List.mem_cons_of_mem _ (ih.2 ⟨h1, fun hs => ?_⟩)
            rcases List.mem_cons.1 hs with h | h
            · exact hba h
            · exact h2 h

theorem mem_dedupFirst {α : Type} [DecidableEq α] {a : α} {l : List α} :
    a ∈ dedupFirst l ↔ a ∈ l := by
  simp [dedupFirst, mem_dedupFirstAux]

theorem mem_bucketNames {name : String} {rv : Option String} {v : Nat} :
    name ∈ bucketNames rv v ↔ name ∈ rawNames rv v := by
  rw [bucketNames, List.mem_insertionSort, mem_dedupFirst]

theorem bucketNames_ne_nil {rv : Option String} {v : Nat} {name : String}
    (h : name ∈ rawNames rv v) : bucketNames rv v ≠ [] := by
  intro hnil
  have hmem := mem_bucketNames.2 h
  rw [hnil] at hmem
  exact List.not_mem_nil _ hmem

theorem bucketWitnessName_mem : ∀ v : Nat, v < 21 → 1 ≤ v →
    ∀ rv ∈ roleScopes, bucketWitnessName rv v ∈ rawNames rv v := by decide

/-- C1: for every roll value in [1,20] and every role scope (one of the
five roles or all five tables when no role is given), every champion the
roll command can select is a member of an in-scope table with a score in
the matched bucket range [low, high]; and rolling 20 with role "top"
selects only from TOP_LANE_CHAMPIONS entries whose score equals 20. -/
theorem roll_selection_within_bucket :
    (∀ v : Nat, 1 ≤ v → v ≤ 20 → ∀ rv ∈ roleScopes, ∀ name ∈ bucketNames rv v,
       ∃ m ∈ mapsFor rv, ∃ p ∈ m, p.1 = name ∧ (bucket v).1 ≤ p.2 ∧ p.2 ≤ (bucket v).2) ∧
    (∀ name ∈ bucketNames (some "top") 20,
       ∃ p ∈ TOP_LANE_CHAMPIONS, p.1 = name ∧ p.2 = 20) := by
  constructor
  · intro v _ _ rv _ name hname
    rw [mem_bucketNames] at hname
    unfold rawNames at hname
    rcases List.mem_flatMap.1 hname with ⟨m, hm, hn⟩
    rcases List.mem_map.1 hn with ⟨p, hp, rfl⟩
    rcases List.mem_filter.1 hp with ⟨hpm, hcond⟩
    have hc := of_decide_eq_true hcond
    exact ⟨m, hm, p, hpm, rfl, hc.1, hc.2⟩
  · decide

theorem roll_selection_within_bucket_witness :
    ∃ m ∈ mapsFor (some "top"), ∃ p ∈ m,
      p.1 = "Kled" ∧ (bucket 20).1 ≤ p.2 ∧ p.2 ≤ (bucket 20).2 :=
  roll_selection_within_bucket.1 20 (by decide) (by decide) (some "top") (by decide)
    "Kled" (by decide)

/-- C2: for every roll value v in [1,20], exactly one of the six inclusive
ranges {1}, {2-4}, {5-9}, {10-14}, {15-19}, {20} contains v, and the
(low, high) pair the roll handler assigns to v is the bounds of that
unique range. -/
theorem roll_bucketing_total_disjoint : ∀ v : Nat, v < 21 → 1 ≤ v →
    (bucketRanges.countP fun r => decide (r.1 ≤ v ∧ v ≤ r.2)) = 1 ∧
    ∀ r ∈ bucketRanges, r.1 ≤ v → v ≤ r.2 → bucket v = r := by decide

theorem roll_bucketing_total_disjoint_witness :
    (bucketRanges.countP fun r => decide (r.1 ≤ 7 ∧ 7 ≤ r.2)) = 1 ∧
    ∀ r ∈ bucketRanges, r.1 ≤ 7 → 7 ≤ r.2 → bucket 7 = r :=
  roll_bucketing_total_disjoint 7 (by decide) (by decide)

/-- C6: for every roll value in [1,20] and every role scope, the set of
champions whose score lies in the matched bucket range is non-empty, so
the "No champions found" branch of the roll handler is unreachable: every
invocation selects a champion (a non-null champion is logged). -/
theorem roll_no_champion_branch_unreachable : ∀ v : Nat, v < 21 → 1 ≤ v →
    ∀ rv ∈ roleScopes,
      bucketNames rv v ≠ [] ∧ ∀ pick : Nat, rollChampion rv v pick ≠ none := by
  intro v hv hv1 rv hrv
  have hne := bucketNames_ne_nil (bucketWitnessName_mem v hv hv1 rv hrv)
  refine ⟨hne, fun pick => ?_⟩
  have hlen : (bucketNames rv v).length ≠ 0 := fun h0 => hne (List.length_eq_zero.1 h0)
  have hlt : pick % (bucketNames rv v).length < (bucketNames rv v).length :=
    Nat.mod_lt _ (Nat.pos_of_ne_zero hlen)
  rw [rollChampion, if_neg hlen, List.getElem?_eq_getElem hlt]
  simp

theorem roll_no_champion_branch_unreachable_witness :
    bucketNames (some "top") 1 ≠ [] ∧
    ∀ pick : Nat, rollChampion (some "top") 1 pick ≠ none :=
  roll_no_champion_branch_unreachable 1 (by decide) (by decide) (some "top") (by decide)

theorem addRanks_length (i : Nat) (l : List ((Int × String) × List ℚ)) :
    (addRanks i l).length = l.length := by
  induction l generalizing i with
  | nil => rfl
  | cons x rest ih => cases x; simp [addRanks, ih]

theorem addRanks_map_rank (i : Nat) (l : List ((Int × String) × List ℚ)) :
    (addRanks i l).map (fun e => e.rank) = List.range' i l.length := by
  induction l generalizing i with
  | nil => rfl
  | cons x rest ih =>
    cases x
    simp [addRanks, ih, List.range'_succ]

theorem addRanks_map_proj (f : List ℚ → ℚ) (i : Nat)
    (l : List ((Int × String) × List ℚ)) :
    (addRanks i l).map (fun e => f e.data) = l.map fun x => f x.2 := by
  induction l generalizing i with
  | nil => rfl
  | cons x rest ih => cases x; simp [addRanks, ih]

theorem mem_addRanks {e : LBEntry} :
    ∀ {i : Nat} {l : List ((Int × String) × List ℚ)}, e ∈ addRanks i l →
      ∃ x ∈ l, e.user_id = x.1.1 ∧ e.username = x.1.2 ∧ e.data = x.2 := by
  intro i l
  induction l generalizing i with
  | nil => intro h; cases h
  | cons x rest ih =>
    rcases x with ⟨k, d⟩
    intro h
    rcases List.mem_cons.1 h with rfl | h
    · exact ⟨(k, d), List.mem_cons_self _ _, rfl, rfl, rfl⟩
    · rcases ih h with ⟨y, hy, h1, h2, h3⟩
      exact ⟨y, List.mem_cons_of_mem _ hy, h1, h2, h3⟩

theorem mem_lbPipeline {db : List Roll} {mk : (Int × String) → Nat × List ℚ}
    {rel : ((Int × String) × Nat × List ℚ) → ((Int × String) × Nat × List ℚ) → Prop}
    [DecidableRel rel] {minRolls limit : Nat} {e : LBEntry}
    (h : e ∈ lbPipeline db mk rel minRolls limit) :
    ∃ k ∈ dedupFirst (db.map rollKey), e.user_id = k.1 ∧ minRolls ≤ (mk k).1 := by
  unfold lbPipeline at h
  rcases mem_addRanks h with ⟨x, hx, huid, _, _⟩
  rcases List.mem_map.1 hx with ⟨y, hy, rfl⟩
  have hy' := (List.mem_insertionSort rel).1 (List.mem_of_mem_take hy)
  rcases List.mem_filter.1 hy' with ⟨hyrows, hymin⟩
  rcases List.mem_map.1 hyrows with ⟨k, hk, rfl⟩
  refine ⟨k, hk, huid, ?_⟩
  exact of_decide_eq_true hymin

theorem keyTotal_le_userTotal (db : List Roll) (k : Int × String) :
    keyTotal db k ≤ userTotalCount db k.1 := by
  apply List.countP_mono_left
  intro r _ hr
  have h : rollKey r = k := of_decide_eq_true hr
  subst h
  exact decide_eq_true rfl

/-- C4: users with fewer than 5 total rolls never appear in the
leaderboard results for the minimum-sample-threshold categories
(luckiest, unluckiest, highest_avg), for any database state and limit. -/
theorem leaderboard_min_sample_threshold :
    ∀ (db : List Roll) (limit : Nat) (category : String) (uid : Int),
      category ∈ (["luckiest", "unluckiest", "highest_avg"] : List String) →
      userTotalCount db uid < 5 →
      ∀ e ∈ get_leaderboard_data db category limit, e.user_id ≠ uid := by
  intro db limit category uid hcat hlt e he heq
  have key : ∀ (mk : (Int × String) → Nat × List ℚ)
      (rel : ((Int × String) × Nat × List ℚ) → ((Int × String) × Nat × List ℚ) → Prop)
      (inst : DecidableRel rel),
      (∀ k, (mk k).1 = keyTotal db k) →
      e ∈ lbPipeline db mk rel 5 limit → False := by
    intro mk rel inst hmk hmem
    rcases mem_lbPipeline hmem with ⟨k, _, huid, h5⟩
    rw [hmk k] at h5
    have hle := keyTotal_le_userTotal db k
    rw [← huid, heq] at hle
    omega
  fin_cases hcat
  · rw [show get_leaderboard_data db "luckiest" limit =
        lbPipeline db (luckMk db) pctCountRel 5 limit by simp [get_leaderboard_data]] at he
    exact key _ _ _ (fun k => rfl) he
  · rw [show get_leaderboard_data db "unluckiest" limit =
        lbPipeline db (unluckMk db) pctCountRel 5 limit by simp [get_leaderboard_data]] at he
    exact key _ _ _ (fun k => rfl) he
  · rw [show get_leaderboard_data db "highest_avg" limit =
        lbPipeline db (avgMk db) avgTotalRel 5 limit by simp [get_leaderboard_data]] at he
    exact key _ _ _ (fun k => rfl) he

/-- C5: the leaderboard query for category "total_rolls" with limit n
returns at most n entries, sorted in descending order of per-user roll
count (the single data column of each entry), with rank fields starting at
1 and increasing consecutively by 1. -/
theorem leaderboard_total_rolls_shape :
    ∀ (db : List Roll) (limit : Nat),
      (get_leaderboard_data db "total_rolls" limit).length ≤ limit ∧
      List.Pairwise (fun a b : ℚ => b ≤ a)
        ((get_leaderboard_data db "total_rolls" limit).map fun e => e.data.headD 0) ∧
      (get_leaderboard_data db "total_rolls" limit).map (fun e => e.rank) =
        List.range' 1 (get_leaderboard_data db "total_rolls" limit).length := by
  intro db limit
  rw [show get_leaderboard_data db "total_rolls" limit = countPipeline db limit by
    simp [get_leaderboard_data]]
  unfold countPipeline
  refine ⟨?_, ?_, ?_⟩
  · rw [addRanks_length, List.length_map, List.length_take]
    exact Nat.min_le_left _ _
  · rw [addRanks_map_proj (fun d => d.headD 0), List.map_map]
    have hs : List.Pairwise countRel
        (List.take limit (List.insertionSort countRel (groupCounts db))) :=
      List.Pairwise.sublist (List.take_sublist _ _)
        (List.sorted_insertionSort countRel (groupCounts db))
    rw [List.pairwise_map]
    refine hs.imp ?_
    intro a b hab
    show ((b.2 : ℚ)) ≤ ((a.2 : ℚ))
    exact_mod_cast hab
  · rw [addRanks_map_rank, addRanks_length]

/-- C9: a user with zero logged rolls gets the explicit "No Rolls Yet!"
response from `/stats`; the handler returns before any of the percentage
or average divisions is reached. -/
theorem stats_zero_rolls_no_division :
    ∀ (db : List Roll) (uid : Int),
      (db.countP fun r => decide (r.user_id = uid)) = 0 →
      stats db uid = StatsResponse.noRollsYet := by
  intro db uid h
  simp [stats, get_user_stats, h]

theorem stats_zero_rolls_no_division_witness :
    stats [] 0 = StatsResponse.noRollsYet :=
  stats_zero_rolls_no_division [] 0 rfl

/-- C10: for every limit outside [1,25] the leaderboard command responds
with the invalid-limit error embed (before any query runs); for every
limit inside [1,25] that error branch is never taken. -/
theorem leaderboard_limit_validation :
    ∀ (db : List Roll) (uid : Int) (category : String) (limit : Int),
      ((limit < 1 ∨ 25 < limit) → leaderboard db uid category limit = LBResponse.invalidLimit) ∧
      (1 ≤ limit → limit ≤ 25 → leaderboard db uid category limit ≠ LBResponse.invalidLimit) := by
  intro db uid category limit
  constructor
  · intro h
    rw [leaderboard, if_pos h]
  · intro h1 h2
    rw [leaderboard, if_neg (by omega)]
    split
    · exact fun hc => LBResponse.noConfusion hc
    · exact fun hc => LBResponse.noConfusion hc

theorem leaderboard_limit_validation_witness :
    leaderboard [] 0 "total_rolls" 30 = LBResponse.invalidLimit ∧
    leaderboard [] 0 "total_rolls" 10 ≠ LBResponse.invalidLimit :=
  ⟨(leaderboard_limit_validation [] 0 "total_rolls" 30).1 (by decide),
   (leaderboard_limit_validation [] 0 "total_rolls" 10).2 (by decide) (by decide)⟩

theorem nodup_dedupFirstAux {α : Type} [DecidableEq α] :
    ∀ (l seen : List α), (dedupFirstAux seen l).Nodup := by
  intro l
  induction l with
  | nil => intro seen; exact List.nodup_nil
  | cons a rest ih =>
    intro seen
    by_cases ha : a ∈ seen
    · rw [dedupFirstAux, if_pos ha]
      exact ih seen
    · rw [dedupFirstAux, if_neg ha]
      refine List.nodup_cons.2 ⟨?_, ih (a :: seen)⟩
      intro hmem
      exact (mem_dedupFirstAux.1 hmem).2 (List.mem_cons_self a seen)

theorem nodup_dedupFirst {α : Type} [DecidableEq α] (l : List α) :
    (dedupFirst l).Nodup :=
  nodup_dedupFirstAux l []

theorem countP_dedupFirst_congr {α : Type} [DecidableEq α] (p : α → Bool)
    (l1 l2 : List α) (h : ∀ x, p x = true → (x ∈ l1 ↔ x ∈ l2)) :
    (dedupFirst l1).countP p = (dedupFirst l2).countP p := by
  have key : ∀ l : List α, (dedupFirst l).countP p =
      ((dedupFirst l).toFinset.filter (fun x => p x)).card := by
    intro l
    rw [List.countP_eq_length_filter,
      ← List.toFinset_card_of_nodup ((nodup_dedupFirst l).filter p),
      List.toFinset_filter]
  rw [key, key]
  congr 1
  ext x
  simp only [Finset.mem_filter, List.mem_toFinset, mem_dedupFirst]
  constructor
  · rintro ⟨hx, hp⟩
    exact ⟨(h x hp).1 hx, hp⟩
  · rintro ⟨hx, hp⟩
    exact ⟨(h x hp).2 hx, hp⟩

theorem filter20_countP (db : List Roll) (u : Int) :
    ((db.filter fun r => decide (r.roll_value = 20)).countP
      fun r => decide (r.user_id = u)) = userNat20Count db u := by
  rw [List.countP_filter, userNat20Count]
  apply List.countP_congr
  intro r _
  simp

theorem userLuckPct_of_ge5 {db : List Roll} {u : Int} (h : 5 ≤ userTotalCount db u) :
    userLuckPct db u =
      some (round2 ((userNat20Count db u : ℚ) * 100 / (userTotalCount db u : ℚ))) := by
  rw [userLuckPct, if_neg (by omega)]

/-- C3 (amended): `get_user_rank` returns, for total_rolls and
natural_20s, one plus the number of users whose metric strictly exceeds
the given user's; for luckiest, one plus the number of users with at
least 5 rolls whose luck percentage strictly exceeds the given user's
(a user with no rolls has no percentage, so no one exceeds it); and
`None` for every other category. -/
theorem get_user_rank_matches_spec :
    ∀ (db : List Roll) (uid : Int),
      get_user_rank db uid "total_rolls" = some (specRankTotal db uid) ∧
      get_user_rank db uid "natural_20s" = some (specRankNat20 db uid) ∧
      get_user_rank db uid "luckiest" = some (specRankLucky db uid) ∧
      ∀ category : String, category ≠ "total_rolls" → category ≠ "natural_20s" →
        category ≠ "luckiest" → get_user_rank db uid category = none := by
  intro db uid
  refine ⟨?_, ?_, ?_, ?_⟩
  · rw [get_user_rank, if_pos rfl]
    rfl
  · rw [get_user_rank, if_neg (by decide), if_pos rfl]
    rw [specRankNat20, usersOf]
    congr 1
    congr 1
    simp only [filter20_countP]
    apply countP_dedupFirst_congr
    intro u hu
    have hpos : 0 < userNat20Count db u := by
      have := of_decide_eq_true hu
      omega
    constructor
    · intro hmem
      rcases List.mem_map.1 hmem with ⟨r, hr, rfl⟩
      exact List.mem_map.2 ⟨r, List.mem_of_mem_filter hr, rfl⟩
    · intro _
      rcases List.countP_pos_iff.1 hpos with ⟨r, hr, hp⟩
      have hp' := of_decide_eq_true hp
      refine List.mem_map.2 ⟨r, List.mem_filter.2 ⟨hr, decide_eq_true hp'.2⟩, hp'.1⟩
  · rw [get_user_rank, if_neg (by decide), if_neg (by decide), if_pos rfl]
    rw [specRankLucky, usersOf]
    congr 1
    congr 1
    apply List.countP_congr
    intro u _
    by_cases h5 : 5 ≤ userTotalCount db u
    · rw [userLuckPct_of_ge5 h5, decide_eq_true h5, Bool.true_and, Bool.true_and]
      cases userLuckPct db uid with
      | none => simp
      | some p => simp
    · rw [decide_eq_false h5, Bool.false_and, Bool.false_and]
  · intro category h1 h2 h3
    rw [get_user_rank, if_neg h1, if_neg h2, if_neg h3]

theorem get_user_rank_matches_spec_witness :
    get_user_rank [] 0 "unluckiest" = none :=
  (get_user_rank_matches_spec [] 0).2.2.2 "unluckiest" (by decide) (by decide) (by decide)

/-- C3 counterexample: on `dbSmall`, the code ranks user 2 first in the
luckiest category even though user 1's luck percentage strictly exceeds
user 2's (user 1 is dropped by the `HAVING COUNT(*) >= 5` filter the
claim does not mention), and the natural_1s category returns no rank at
all rather than one plus a count. -/
theorem get_user_rank_claim_counterexample :
    get_user_rank dbSmall 2 "luckiest" = some 1 ∧
    claimLuckRank dbSmall 2 = 2 ∧
    get_user_rank dbSmall 2 "natural_1s" = none := by
  refine ⟨by decide!, by decide!, by decide!⟩

theorem leaderboard_min_sample_threshold_witness :
    (⟨1, 2, "bob", [(1 : ℚ), 5, 20]⟩ : LBEntry).user_id ≠ 1 :=
  leaderboard_min_sample_threshold dbSmall 10 "luckiest" 1 (by decide) (by decide)
    ⟨1, 2, "bob", [(1 : ℚ), 5, 20]⟩ (by decide!)

/-- C7: for every champion name in more than one role table with
different scores, `get_champion_info` reports the score of the last table
merged in the order TOP, JUNGLE, ADC, MID, SUPPORT (in particular the
SUPPORT score whenever the name is in SUPPORT_CHAMPIONS), while the roles
list contains every role table the name appears in. -/
theorem champion_info_last_merge :
    ∀ name ∈ allChampionNames, multiRoleDifferingScores name →
      ((get_champion_info name).map fun i => i.aggression) = lastMergedScore name ∧
      ((SUPPORT_CHAMPIONS.lookup name).isSome →
        ((get_champion_info name).map fun i => i.aggression) =
          SUPPORT_CHAMPIONS.lookup name) ∧
      ((get_champion_info name).map fun i => i.roles) = some (rolesOf name) := by
  decide!

theorem champion_info_last_merge_witness :
    ((get_champion_info "Malphite").map fun i => i.aggression) =
      SUPPORT_CHAMPIONS.lookup "Malphite" :=
  (champion_info_last_merge "Malphite" (by decide) (by decide)).2.1 (by decide)

theorem letter_ne_apos {a : Char} (h : isAsciiLetter a = true) : a ≠ apos := by
  intro he
  rw [he] at h
  exact absurd h (by decide)

theorem letter_ne_space {a : Char} (h : isAsciiLetter a = true) : a ≠ ' ' := by
  intro he
  rw [he] at h
  exact absurd h (by decide)

theorem pyRemove_default_icon (name : String) :
    pyRemoveChar ' ' (pyRemoveChar apos (_default_icon_filename name)) =
      _default_icon_filename name := by
  unfold _default_icon_filename pyRemoveChar
  congr 1
  have h1 : (name.data.filter isAsciiLetter ++ ['.', 'p', 'n', 'g']).filter
      (fun d => decide (d ≠ apos)) = name.data.filter isAsciiLetter ++ ['.', 'p', 'n', 'g'] := by
    apply List.filter_eq_self.2
    intro a ha
    apply decide_eq_true
    rcases List.mem_append.1 ha with h | h
    · exact letter_ne_apos (List.of_mem_filter h)
    · simp only [List.mem_cons, List.not_mem_nil, or_false] at h
      rcases h with rfl | rfl | rfl | rfl <;> decide
  rw [h1]
  apply List.filter_eq_self.2
  intro a ha
  apply decide_eq_true
  rcases List.mem_append.1 ha with h | h
  · exact letter_ne_space (List.of_mem_filter h)
  · simp only [List.mem_cons, List.not_mem_nil, or_false] at h
    rcases h with rfl | rfl | rfl | rfl <;> decide

theorem find?_dedup_iconCandidates (p : String → Bool) (name : String) :
    (dedupFirst (iconCandidates name)).find? p = (iconSpecCandidates name).find? p := by
  unfold iconCandidates iconSpecCandidates
  cases hov : _ICON_OVERRIDES.lookup name with
  | none =>
    simp only [List.nil_append, List.cons_append, List.append_nil]
    rw [pyRemove_default_icon]
    rw [show dedupFirst [_default_icon_filename name, _default_icon_filename name] =
        [_default_icon_filename name] from by simp [dedupFirst, dedupFirstAux]]
  | some f =>
    simp only [List.cons_append, List.nil_append, List.append_nil]
    by_cases hfd : _default_icon_filename name = f
    · rw [hfd]
      rw [show dedupFirst [f, f] = [f] from by simp [dedupFirst, dedupFirstAux]]
      cases hp : p f <;> simp [List.find?, hp]
    · rw [show dedupFirst [f, _default_icon_filename name] =
          [f, _default_icon_filename name] from by simp [dedupFirst, dedupFirstAux, hfd]]

/-- C8: icon resolution returns the full path of the first existing
candidate, taking the override-table filename first when the name has
one and the stripped-name filename second, and no result when neither
exists: the code's candidate construction (with its conditional third
candidate and deduplication) is equivalent to that two-candidate
first-match rule, for every name and every fixed set of files. -/
theorem icon_resolution_first_match :
    ∀ (files : List String) (name : String),
      get_icon_path_for_champion files name = iconSpecResolve files name := by
  intro files name
  unfold get_icon_path_for_champion iconSpecResolve
  rw [find?_dedup_iconCandidates]
